import Mathlib

/-!
Verification of the Location Resolution & Disambiguation Engine of the
cabs-mcp-server repository.

The embedding models:
- `geocode_location` (services/location.py): Google Places autocomplete wrapper,
  with the upstream behaviour made explicit as a `GeoUpstream` value;
- `resolve_location_by_place_id` (services/location.py): the detail resolver,
  with upstream behaviour as a `DetailUpstream` value;
- `get_location_with_disambiguation` (services/location.py): the interactive
  orchestrator; the human elicitation round trips are modelled by a finite
  script of responses, and every geocode / detail invocation is recorded in a
  trace;
- `resolve_location`: the stateless orchestrator imported by server.py from
  services.location but not present in the source tree; it is modelled from
  the spec.
-/

namespace CabsMCP

/-- Equality of `Except` values is decidable when it is for both components;
used to evaluate the embedded functions on concrete inputs. -/
instance {ε α : Type} [DecidableEq ε] [DecidableEq α] :
    DecidableEq (Except ε α) := fun x y =>
  match x, y with
  | .ok a, .ok b =>
    if h : a = b then isTrue (by rw [h]) else isFalse (fun hh => by cases hh; exact h rfl)
  | .error a, .error b =>
    if h : a = b then isTrue (by rw [h]) else isFalse (fun hh => by cases hh; exact h rfl)
  | .ok _, .error _ => isFalse (fun hh => by cases hh)
  | .error _, .ok _ => isFalse (fun hh => by cases hh)

/-- Python `str.isspace` on one character: the whitespace set stripped by
`str.strip()`. -/
def py_isspace (c : Char) : Bool :=
  c == ' ' || c == '\t' || c == '\n' || c == '\r' || c == '\x0b' || c == '\x0c'

/-- Python `s.strip()`: remove leading and trailing whitespace. -/
def py_strip (s : String) : String :=
  String.mk (((s.data.dropWhile py_isspace).reverse.dropWhile py_isspace).reverse)

/-- One autocomplete prediction from the upstream provider, as read by the
code: `place_id` and `description` are accessed with mandatory indexing,
`structured_formatting.main_text` is optional. -/
structure Prediction where
  place_id : String
  description : String
  main_text : Option String
deriving Repr, DecidableEq

/-- Upstream behaviour of one autocomplete HTTP call: the fault cases the
code catches, or a decoded JSON payload (status plus predictions). -/
inductive GeoUpstream where
  | timeout
  | httpError
  | unexpected
  | response (status : String) (predictions : List Prediction)
deriving Repr, DecidableEq

/-- Place suggestion produced by geocoding (models.LocationOption). -/
structure LocationOption where
  place_id : String
  formatted_address : String
  name : String
deriving Repr, DecidableEq

/-- Full location object populated from the Location API response
(models.LocationObject); JSON numbers are modelled as rationals. -/
structure LocationObject where
  pincode : String
  country : String
  address : String
  city : String
  secondary_text : Option String
  latitude : ℚ
  is_airport : Bool
  city_code : Option String
  label : Option String
  country_code : String
  is_city : Bool
  google_city : Option String
  locusV2Id : String
  name : Option String
  mainText : Option String
  main_text : Option String
  state : String
  locusV2Type : String
  place_id : String
  longitude : ℚ
deriving Repr, DecidableEq

/-- Decoded JSON payload of one Location API response; `none` means the
field is absent. -/
structure LocationData where
  pincode : Option String
  country : Option String
  address : Option String
  city : Option String
  secondary_text : Option String
  latitude : Option ℚ
  is_airport : Option Bool
  city_code : Option String
  label : Option String
  country_code : Option String
  is_city : Option Bool
  google_city : Option String
  locusV2Id : Option String
  name : Option String
  mainText : Option String
  main_text : Option String
  state : Option String
  locusV2Type : Option String
  place_id : Option String
  longitude : Option ℚ
deriving Repr, DecidableEq

/-- Upstream behaviour of one Location API HTTP call. -/
inductive DetailUpstream where
  | timeout
  | httpError
  | unexpected
  | response (data : LocationData)
deriving Repr, DecidableEq

/-- Python truthiness of the configured credential:
`if not GOOGLE_PLACES_API_KEY` is taken when the variable is unset or empty. -/
def isConfigured : Option String → Bool
  | none => false
  | some k => k ≠ ""

/-- Error message raised by `geocode_location` when the credential is
missing. -/
def configErrorMsg : String :=
  "Location service is not configured. Please contact administrator."

/-- `geocode_location(query)` from services/location.py. The empty /
whitespace-only check precedes the credential check; a missing credential
raises ValueError (modelled as `Except.error`); every caught upstream fault
and every non-OK status degrades to the empty list; on success each
prediction maps to a `LocationOption` with `main_text` falling back to the
full description. -/
def geocode_location (apiKey : Option String) (query : String)
    (upstream : GeoUpstream) : Except String (List LocationOption) :=
  -- `if not query or not query.strip()`: since stripping the empty string
  -- yields the empty string, the disjunction reduces to the second test.
  if py_strip query = "" then Except.ok []
  else if isConfigured apiKey = false then Except.error configErrorMsg
  else
    match upstream with
    | .timeout => Except.ok []
    | .httpError => Except.ok []
    | .unexpected => Except.ok []
    | .response status predictions =>
      if status ≠ "OK" then Except.ok []
      else Except.ok (predictions.map (fun p =>
        { place_id := p.place_id
          formatted_address := p.description
          name := p.main_text.getD p.description }))

/-- True exactly when the geocoding call reaches the network: the code
issues the HTTP request only after the empty-query return and the
credential check. -/
def geocode_network_call (apiKey : Option String) (query : String) : Bool :=
  !(py_strip query == "") && isConfigured apiKey

/-- `resolve_location_by_place_id(place_id)` from services/location.py.
An empty identifier returns nothing; every caught upstream fault returns
nothing; on success the `LocationObject` is built with `data.get` defaults,
the requested `place_id` standing in for a missing identifier field. -/
def resolve_location_by_place_id (place_id : String)
    (upstream : DetailUpstream) : Option LocationObject :=
  if place_id = "" then none
  else
    match upstream with
    | .timeout => none
    | .httpError => none
    | .unexpected => none
    | .response data =>
      some
        { pincode := data.pincode.getD ""
          country := data.country.getD ""
          address := data.address.getD ""
          city := data.city.getD ""
          secondary_text := data.secondary_text
          latitude := data.latitude.getD 0
          is_airport := data.is_airport.getD false
          city_code := data.city_code
          label := data.label
          country_code := data.country_code.getD ""
          is_city := data.is_city.getD false
          google_city := data.google_city
          locusV2Id := data.locusV2Id.getD ""
          name := data.name
          mainText := data.mainText
          main_text := data.main_text
          state := data.state.getD ""
          locusV2Type := data.locusV2Type.getD ""
          place_id := data.place_id.getD place_id
          longitude := data.longitude.getD 0 }

/-- The environment of one resolution request: the process-wide credential
and the upstream behaviour of the two external services, one response per
query / place identifier. -/
structure Env where
  apiKey : Option String
  geo : String → GeoUpstream
  detail : String → DetailUpstream

/-- Observable trace of one orchestration run: the (query, location_type)
pairs for every geocoding invocation, in order, and the place identifiers
passed to detail resolution, in order. -/
structure Trace where
  geoCalls : List (String × String)
  detailCalls : List String
deriving Repr, DecidableEq

/-- Result of one interactive orchestration run: an uncaught ValueError
(`fatal`), a resolved location (`success`, Python `(location, None)`), or a
user-facing failure message (`failure`, Python `(None, error_message)`). -/
inductive RunOutcome where
  | fatal (msg : String)
  | success (loc : LocationObject)
  | failure (msg : String)
deriving Repr, DecidableEq

/-- The sentinel key offered alongside the candidates in the interactive
choice prompt. -/
def customKey : String := "__CUSTOM__"

/-- Title of the sentinel option. -/
def customTitle : String := "None of these - let me specify a different location"

/-- Python dict assignment `d[k] = v`: updates the value in place when the
key exists (position preserved), otherwise appends the new entry. -/
def dict_set (d : List (String × String)) (k v : String) :
    List (String × String) :=
  if d.any (fun p => p.1 == k) then
    d.map (fun p => if p.1 == k then (k, v) else p)
  else d ++ [(k, v)]

/-- Python dict lookup `d.get(k)`: the value of the first entry whose key
matches. -/
def dict_get (d : List (String × String)) (k : String) : Option String :=
  (d.find? (fun p => p.1 == k)).map Prod.snd

/-- The elicitation options dict of get_location_with_disambiguation: one
entry per candidate keyed by its place_id (a dict comprehension, so a later
duplicate key overwrites the earlier value), then the `__CUSTOM__` sentinel
entry is assigned. -/
def buildOptionsDict (results : List LocationOption) :
    List (String × String) :=
  dict_set
    (results.foldl
      (fun d loc => dict_set d loc.place_id (loc.name ++ " - " ++ loc.formatted_address))
      [])
    customKey customTitle

/-- Prepends the current (query, location_type) geocoding call to the trace
of a recursive run. -/
def push_trace (q ty : String) (res : RunOutcome × Trace) : RunOutcome × Trace :=
  (res.1, ⟨(q, ty) :: res.2.geoCalls, res.2.detailCalls⟩)

/-- Body of `get_location_with_disambiguation(ctx, location_query,
location_type)` from services/location.py, continuation of the
`results = await geocode_location(location_query)` call whose outcome is
the `results` argument. The two `ctx.elicit` round trips consume entries
of `script` (each entry the `response.data` of one elicitation; `none` or an
exhausted script models a declined elicitation). Geocoding faults raised as
ValueError propagate (`fatal`); zero results fail; a single result goes to
detail resolution; multiple results build the options dict and follow the
human's choice, recursing on a custom query. -/
def get_location_with_disambiguation_core (env : Env)
    (script : List (Option String)) (location_query : String)
    (location_type : String)
    (results : Except String (List LocationOption)) : RunOutcome × Trace :=
  match results with
  | .error msg => (.fatal msg, ⟨[(location_query, location_type)], []⟩)
  | .ok [] =>
      (.failure ("No locations found for " ++ location_type ++ ": " ++ location_query),
       ⟨[(location_query, location_type)], []⟩)
  | .ok [loc] =>
      match resolve_location_by_place_id loc.place_id (env.detail loc.place_id) with
      | none =>
          (.failure ("Failed to get details for " ++ location_type ++ ": \x27"
              ++ loc.name ++ "\x27. Please try again."),
           ⟨[(location_query, location_type)], [loc.place_id]⟩)
      | some location =>
          (.success location, ⟨[(location_query, location_type)], [loc.place_id]⟩)
  | .ok (r1 :: r2 :: rs) =>
      -- the options dict offered through ctx.elicit: `buildOptionsDict (r1 :: r2 :: rs)`;
      -- `choice` below is the human's `response.data` for it
      match script with
      | [] =>
          (.failure ("No " ++ location_type ++ " location selected"),
           ⟨[(location_query, location_type)], []⟩)
      | choice :: script1 =>
          if choice.getD "" = "" then
            (.failure ("No " ++ location_type ++ " location selected"),
             ⟨[(location_query, location_type)], []⟩)
          else if choice.getD "" = customKey then
            match script1 with
            | [] =>
                (.failure ("No custom " ++ location_type ++ " location provided"),
                 ⟨[(location_query, location_type)], []⟩)
            | custom :: script2 =>
                if custom.getD "" = "" then
                  (.failure ("No custom " ++ location_type ++ " location provided"),
                   ⟨[(location_query, location_type)], []⟩)
                else
                  push_trace location_query location_type
                    (get_location_with_disambiguation_core env script2
                      (custom.getD "") location_type
                      (geocode_location env.apiKey (custom.getD "")
                        (env.geo (custom.getD ""))))
          else
            match resolve_location_by_place_id (choice.getD "")
                (env.detail (choice.getD "")) with
            | none =>
                (.failure ("Failed to resolve " ++ location_type
                    ++ " location. Please try a different search."),
                 ⟨[(location_query, location_type)], [choice.getD ""]⟩)
            | some location =>
                (.success location,
                 ⟨[(location_query, location_type)], [choice.getD ""]⟩)
termination_by script.length
decreasing_by simp_arith

/-- `get_location_with_disambiguation(ctx, location_query, location_type)`:
runs geocoding on the query and hands its result to the continuation above. -/
def get_location_with_disambiguation (env : Env)
    (script : List (Option String)) (location_query : String)
    (location_type : String) : RunOutcome × Trace :=
  get_location_with_disambiguation_core env script location_query location_type
    (geocode_location env.apiKey location_query (env.geo location_query))

/-- Failure reasons of the stateless resolution outcome (spec section 7). -/
inductive FailReason where
  | no_results
  | detail_resolution_failed
deriving Repr, DecidableEq

/-- One numbered disambiguation option of the stateless serialization
(spec section 6). -/
structure DisambigOption where
  option_number : Nat
  name : String
  address : String
  identifier : String
deriving Repr, DecidableEq

/-- Outcome of one stateless resolution call (spec section 3). -/
inductive ResolutionOutcome where
  | Resolved (loc : LocationObject)
  | NeedsDisambiguation (options : List DisambigOption)
  | Failed (reason : FailReason)
deriving Repr, DecidableEq

/-- Numbering of candidates 1..N for the stateless disambiguation payload
(spec sections 4.3 and 6: option_number, name, address, identifier). -/
def numberOptions (results : List LocationOption) : List DisambigOption :=
  (results.enumFrom 1).map (fun p =>
    { option_number := p.1
      name := p.2.name
      address := p.2.formatted_address
      identifier := p.2.place_id })

/-- Modelled from the spec: the stateless orchestrator `resolve_location`,
imported by server.py from services.location but absent from the source
tree. Spec section 4.4: an explicit identifier goes straight to the Detail
Resolver (success is Resolved, failure is Failed(detail_resolution_failed))
and Discovery is never invoked; otherwise Discovery runs on the query text
(a ConfigurationError propagates), zero candidates fail with no_results,
one candidate goes to the Detail Resolver, two or more return
NeedsDisambiguation with the candidates numbered 1..N. -/
def resolve_location (env : Env) (query_text : String)
    (location_type : String) (explicit_identifier : Option String) :
    Except String (ResolutionOutcome × Trace) :=
  match explicit_identifier with
  | some pid =>
    match resolve_location_by_place_id pid (env.detail pid) with
    | some loc => Except.ok (.Resolved loc, ⟨[], [pid]⟩)
    | none => Except.ok (.Failed .detail_resolution_failed, ⟨[], [pid]⟩)
  | none =>
    match geocode_location env.apiKey query_text (env.geo query_text) with
    | .error msg => Except.error msg
    | .ok [] =>
        Except.ok (.Failed .no_results, ⟨[(query_text, location_type)], []⟩)
    | .ok [loc] =>
        match resolve_location_by_place_id loc.place_id (env.detail loc.place_id) with
        | some location =>
            Except.ok (.Resolved location, ⟨[(query_text, location_type)], [loc.place_id]⟩)
        | none =>
            Except.ok (.Failed .detail_resolution_failed,
              ⟨[(query_text, location_type)], [loc.place_id]⟩)
    | .ok (r1 :: r2 :: rs) =>
        Except.ok (.NeedsDisambiguation (numberOptions (r1 :: r2 :: rs)),
          ⟨[(query_text, location_type)], []⟩)

/-! ## Concrete fixtures used by witnesses and counterexamples -/

/-- A sample Location API JSON payload with most fields absent. -/
def sampleData : LocationData :=
  { pincode := some "122002", country := none, address := some "DLF Cyber City",
    city := none, secondary_text := none, latitude := some 28, is_airport := none,
    city_code := none, label := none, country_code := none, is_city := none,
    google_city := none, locusV2Id := none, name := none, mainText := none,
    main_text := none, state := none, locusV2Type := none, place_id := none,
    longitude := some 77 }

/-- The LocationObject built from `sampleData` for the identifier `pidB`. -/
def sampleLoc : LocationObject :=
  { pincode := "122002", country := "", address := "DLF Cyber City", city := "",
    secondary_text := none, latitude := 28, is_airport := false, city_code := none,
    label := none, country_code := "", is_city := false, google_city := none,
    locusV2Id := "", name := none, mainText := none, main_text := none,
    state := "", locusV2Type := "", place_id := "pidB", longitude := 77 }

/-- Environment whose discovery returns one prediction for every query and
whose detail lookups succeed with `sampleData`. -/
def envOne : Env :=
  { apiKey := some "k"
    geo := fun _ => .response "OK" [⟨"pidB", "descB", none⟩]
    detail := fun _ => .response sampleData }

/-- Environment whose discovery returns zero predictions. -/
def envZero : Env :=
  { apiKey := some "k"
    geo := fun _ => .response "OK" []
    detail := fun _ => .response sampleData }

/-- Environment whose discovery returns two predictions (distinct ids) for
the query "two" and one prediction for every other query. -/
def envTwo : Env :=
  { apiKey := some "k"
    geo := fun q => if q = "two" then .response "OK" [⟨"pidA", "descA", some "A"⟩, ⟨"pidB", "descB", none⟩]
                    else .response "OK" [⟨"pidB", "descB", none⟩]
    detail := fun _ => .response sampleData }

/-- Environment with the service credential missing. -/
def envNoKey : Env :=
  { apiKey := none
    geo := fun _ => .unexpected
    detail := fun _ => .unexpected }

/-! ## Claims -/

/-- C1: with an explicit identifier, the orchestrator calls the Detail
Resolver directly with that identifier — detail success yields `Resolved`,
detail failure yields `Failed(detail_resolution_failed)` — and Discovery is
never invoked (the trace records no geocoding call), regardless of the
query text and of the environment. -/
theorem C1_explicit_identifier_bypasses_discovery (env : Env)
    (q ty pid : String) :
    resolve_location env q ty (some pid) =
      Except.ok
        ((match resolve_location_by_place_id pid (env.detail pid) with
          | some loc => ResolutionOutcome.Resolved loc
          | none => ResolutionOutcome.Failed FailReason.detail_resolution_failed),
         ⟨[], [pid]⟩) := by
  cases h : resolve_location_by_place_id pid (env.detail pid) <;>
    simp [resolve_location, h]

/-- Unfolding of the interactive orchestrator when Discovery yields exactly
one candidate: detail resolution runs once on that candidate's identifier. -/
theorem gld_single_candidate_eq (env : Env)
    (script : List (Option String)) (q ty : String) (cand : LocationOption)
    (h : geocode_location env.apiKey q (env.geo q) = Except.ok [cand]) :
    get_location_with_disambiguation env script q ty =
      ((match resolve_location_by_place_id cand.place_id (env.detail cand.place_id) with
        | some loc => RunOutcome.success loc
        | none => RunOutcome.failure ("Failed to get details for " ++ ty ++ ": \x27"
            ++ cand.name ++ "\x27. Please try again.")),
       ⟨[(q, ty)], [cand.place_id]⟩) := by
  unfold get_location_with_disambiguation
  rw [h, get_location_with_disambiguation_core]
  cases resolve_location_by_place_id cand.place_id (env.detail cand.place_id) <;> simp

/-- C2: when Discovery yields exactly one candidate, the interactive
orchestrator invokes the Detail Resolver exactly once (the trace records
exactly that candidate's identifier) and returns the resolver's record on
success, a detail-resolution failure otherwise. -/
theorem C2_single_candidate_resolved (env : Env)
    (script : List (Option String)) (q ty : String) (cand : LocationOption)
    (h : geocode_location env.apiKey q (env.geo q) = Except.ok [cand]) :
    get_location_with_disambiguation env script q ty =
      ((match resolve_location_by_place_id cand.place_id (env.detail cand.place_id) with
        | some loc => RunOutcome.success loc
        | none => RunOutcome.failure ("Failed to get details for " ++ ty ++ ": \x27"
            ++ cand.name ++ "\x27. Please try again.")),
       ⟨[(q, ty)], [cand.place_id]⟩) :=
  gld_single_candidate_eq env script q ty cand h

/-- Witness for C2 at a concrete environment: one candidate `pidB`, detail
succeeding with `sampleLoc`. -/
theorem C2_witness :
    geocode_location envOne.apiKey "q" (envOne.geo "q") =
      Except.ok [⟨"pidB", "descB", "descB"⟩] ∧
    get_location_with_disambiguation envOne [] "q" "source" =
      (RunOutcome.success sampleLoc, ⟨[("q", "source")], ["pidB"]⟩) := by
  refine ⟨by decide, ?_⟩
  rw [C2_single_candidate_resolved envOne [] "q" "source" ⟨"pidB", "descB", "descB"⟩ (by decide)]
  decide

/-- C3: when Discovery yields zero candidates, the interactive orchestrator
returns the no-results failure and the Detail Resolver is never invoked
(the trace records no detail call); the empty query short-circuits to zero
candidates for every credential and upstream behaviour, without reaching
the network. -/
theorem C3_zero_candidates_no_results (env : Env)
    (script : List (Option String)) (q ty : String)
    (h : geocode_location env.apiKey q (env.geo q) = Except.ok []) :
    get_location_with_disambiguation env script q ty =
      (RunOutcome.failure ("No locations found for " ++ ty ++ ": " ++ q),
       ⟨[(q, ty)], []⟩) ∧
    (∀ (key : Option String) (u : GeoUpstream),
      geocode_location key "" u = Except.ok []) ∧
    (∀ (key : Option String), geocode_network_call key "" = false) := by
  refine ⟨?_, fun key u => rfl, fun key => rfl⟩
  unfold get_location_with_disambiguation
  rw [h, get_location_with_disambiguation_core]

/-- Witness for C3 at a concrete environment with zero discovery results. -/
theorem C3_witness :
    geocode_location envZero.apiKey "nowhere" (envZero.geo "nowhere") = Except.ok [] ∧
    get_location_with_disambiguation envZero [] "nowhere" "destination" =
      (RunOutcome.failure "No locations found for destination: nowhere",
       ⟨[("nowhere", "destination")], []⟩) := by
  refine ⟨by decide, ?_⟩
  rw [(C3_zero_candidates_no_results envZero [] "nowhere" "destination" (by decide)).1]
  decide

/-- C5: for a non-blank query with the credential configured, every
upstream fault during Discovery (timeout, transport/HTTP error, non-OK
status payload, unexpected error) makes geocoding return the empty list —
exactly the result of a genuine zero-result response. -/
theorem C5_discovery_faults_degrade_to_empty (key : Option String) (q : String)
    (hk : isConfigured key = true) (hq : ¬ py_strip q = "") :
    geocode_location key q .timeout = Except.ok [] ∧
    geocode_location key q .httpError = Except.ok [] ∧
    geocode_location key q .unexpected = Except.ok [] ∧
    (∀ (status : String) (preds : List Prediction), status ≠ "OK" →
      geocode_location key q (.response status preds) = Except.ok []) ∧
    geocode_location key q (.response "OK" []) = Except.ok [] := by
  refine ⟨?_, ?_, ?_, fun status preds hs => ?_, ?_⟩ <;>
    simp [geocode_location, hq, hk, *]

/-- Witness for C5 at a configured key and the query "x", with a non-OK
status payload that even carries predictions. -/
theorem C5_witness :
    isConfigured (some "k") = true ∧ ¬ py_strip "x" = "" ∧
    geocode_location (some "k") "x" GeoUpstream.timeout = Except.ok [] ∧
    geocode_location (some "k") "x"
      (GeoUpstream.response "REQUEST_DENIED" [⟨"p", "d", none⟩]) = Except.ok [] := by
  have h := C5_discovery_faults_degrade_to_empty (some "k") "x" (by decide) (by decide)
  exact ⟨by decide, by decide, h.1, h.2.2.2.1 "REQUEST_DENIED" [⟨"p", "d", none⟩] (by decide)⟩

/-- C8: for a non-empty identifier whose Detail API lookup succeeds, the
resolver always builds a record (absent upstream fields become their
empty/zero/false/null defaults instead of failing), and a missing
identifier field is replaced by the requested identifier. -/
theorem C8_detail_success_builds_record (place_id : String)
    (d : LocationData) (h : ¬ place_id = "") :
    ∃ loc, resolve_location_by_place_id place_id (.response d) = some loc ∧
      (d.pincode = none → loc.pincode = "") ∧
      (d.country = none → loc.country = "") ∧
      (d.address = none → loc.address = "") ∧
      (d.city = none → loc.city = "") ∧
      (d.secondary_text = none → loc.secondary_text = none) ∧
      (d.latitude = none → loc.latitude = 0) ∧
      (d.is_airport = none → loc.is_airport = false) ∧
      (d.city_code = none → loc.city_code = none) ∧
      (d.label = none → loc.label = none) ∧
      (d.country_code = none → loc.country_code = "") ∧
      (d.is_city = none → loc.is_city = false) ∧
      (d.google_city = none → loc.google_city = none) ∧
      (d.locusV2Id = none → loc.locusV2Id = "") ∧
      (d.name = none → loc.name = none) ∧
      (d.mainText = none → loc.mainText = none) ∧
      (d.main_text = none → loc.main_text = none) ∧
      (d.state = none → loc.state = "") ∧
      (d.locusV2Type = none → loc.locusV2Type = "") ∧
      (d.longitude = none → loc.longitude = 0) ∧
      loc.place_id = d.place_id.getD place_id ∧
      (d.place_id = none → loc.place_id = place_id) := by
  unfold resolve_location_by_place_id
  rw [if_neg h]
  refine ⟨_, rfl, ?_, ?_, ?_, ?_, ?_, ?_, ?_, ?_, ?_, ?_, ?_, ?_, ?_, ?_, ?_, ?_,
    ?_, ?_, ?_, rfl, ?_⟩ <;> intro h1 <;> simp [h1]

/-- Witness for C8 at the identifier "pidB" and `sampleData`, whose
identifier field is absent. -/
theorem C8_witness :
    ¬ ("pidB" : String) = "" ∧
    ∃ loc, resolve_location_by_place_id "pidB" (.response sampleData) = some loc ∧
      loc.place_id = "pidB" ∧ loc.country = "" := by
  obtain ⟨loc, h1, _, h3, _, _, _, _, _, _, _, _, _, _, _, _, _, _, _, _, _, _, h21⟩ :=
    C8_detail_success_builds_record "pidB" sampleData (by decide)
  exact ⟨by decide, loc, h1, h21 rfl, h3 rfl⟩

/-- C6 counterexample: with the credential missing, a resolve call whose
free text is whitespace-only returns `Failed(no_results)` — it degrades to
the empty candidate list instead of failing with the ConfigurationError,
because the blank-query short-circuit precedes the credential check. -/
theorem C6_counterexample_blank_query :
    isConfigured envNoKey.apiKey = false ∧
    resolve_location envNoKey " " "source" none =
      Except.ok (ResolutionOutcome.Failed FailReason.no_results,
        ⟨[(" ", "source")], []⟩) ∧
    resolve_location envNoKey " " "source" none ≠ Except.error configErrorMsg := by
  decide

/-- C6 (amended): when the service credential is missing, every resolve
call whose free text is non-blank (and with no explicit identifier) fails
fatally with the ConfigurationError message, and the geocoding network call
is never reached. -/
theorem C6_missing_credential_fails_fatally (env : Env) (q ty : String)
    (hk : isConfigured env.apiKey = false) (hq : ¬ py_strip q = "") :
    resolve_location env q ty none = Except.error configErrorMsg ∧
    geocode_network_call env.apiKey q = false := by
  have hgeo : geocode_location env.apiKey q (env.geo q) = Except.error configErrorMsg := by
    simp [geocode_location, hq, hk]
  exact ⟨by simp [resolve_location, hgeo], by simp [geocode_network_call, hk]⟩

/-- Witness for C6 (amended) at the credential-less environment and the
non-blank query "Cyber City". -/
theorem C6_witness :
    isConfigured envNoKey.apiKey = false ∧ ¬ py_strip "Cyber City" = "" ∧
    resolve_location envNoKey "Cyber City" "source" none = Except.error configErrorMsg := by
  have h := C6_missing_credential_fails_fatally envNoKey "Cyber City" "source"
    (by decide) (by decide)
  exact ⟨by decide, by decide, h.1⟩

/-- C10: after selecting the "none of these" sentinel, an empty (or
declined) refined query makes the interactive orchestrator fail with the
no-custom-location message immediately: the trace shows no second
geocoding call and no detail call. -/
theorem C10_empty_custom_query_fails (env : Env) (q ty : String)
    (r2 : Option String) (rest : List (Option String))
    (a b : LocationOption) (rs : List LocationOption)
    (h : geocode_location env.apiKey q (env.geo q) = Except.ok (a :: b :: rs))
    (h2 : r2.getD "" = "") :
    get_location_with_disambiguation env (some customKey :: r2 :: rest) q ty =
      (RunOutcome.failure ("No custom " ++ ty ++ " location provided"),
       ⟨[(q, ty)], []⟩) := by
  unfold get_location_with_disambiguation
  rw [h, get_location_with_disambiguation_core]
  simp [customKey, h2]

/-- Witness for C10: two candidates for "two", the sentinel selected, and
an empty refined query. -/
theorem C10_witness :
    geocode_location envTwo.apiKey "two" (envTwo.geo "two") =
      Except.ok [⟨"pidA", "descA", "A"⟩, ⟨"pidB", "descB", "descB"⟩] ∧
    get_location_with_disambiguation envTwo [some customKey, some ""] "two" "source" =
      (RunOutcome.failure "No custom source location provided",
       ⟨[("two", "source")], []⟩) := by
  refine ⟨by decide, ?_⟩
  rw [C10_empty_custom_query_fails envTwo "two" "source" (some "") []
    ⟨"pidA", "descA", "A"⟩ ⟨"pidB", "descB", "descB"⟩ [] (by decide) (by decide)]
  decide

/-- Every run of the interactive orchestrator records its own (query, role)
pair as the first geocoding call of its trace. -/
theorem core_geoCalls_head (env : Env) (script : List (Option String))
    (q ty : String) (res : Except String (List LocationOption)) :
    ∃ t, (get_location_with_disambiguation_core env script q ty res).2.geoCalls
      = (q, ty) :: t := by
  induction script, q, ty, res using get_location_with_disambiguation_core.induct env <;>
    (rw [get_location_with_disambiguation_core.eq_def]; simp_all [push_trace])

/-- The role is preserved across the whole interactive run: every geocoding
call in the trace, including those made by recursive refinements, carries
the original location_type. -/
theorem core_geoCalls_role (env : Env) (script : List (Option String))
    (q ty : String) (res : Except String (List LocationOption)) :
    ∀ e ∈ (get_location_with_disambiguation_core env script q ty res).2.geoCalls,
      e.2 = ty := by
  induction script, q, ty, res using get_location_with_disambiguation_core.induct env
  all_goals rw [get_location_with_disambiguation_core.eq_def]
  all_goals simp_all [push_trace]
  all_goals assumption

/-- C7: in interactive mode, when Discovery is ambiguous and the human
selects the "none of these" sentinel and then supplies a non-empty refined
query, the run continues exactly as a fresh run on the refined query under
the same role, contributing exactly one further Discovery entry per level:
the trace is the current (query, role) call followed by the recursive run's
trace, whose own first Discovery call carries the new text; and the role is
preserved across every geocoding call of the whole run. -/
theorem C7_custom_reenters_discovery_once (env : Env) (q ty q2 : String)
    (rest : List (Option String)) (a b : LocationOption)
    (rs : List LocationOption)
    (h : geocode_location env.apiKey q (env.geo q) = Except.ok (a :: b :: rs))
    (h2 : ¬ q2 = "") :
    get_location_with_disambiguation env (some customKey :: some q2 :: rest) q ty =
      ((get_location_with_disambiguation env rest q2 ty).1,
       ⟨(q, ty) :: (get_location_with_disambiguation env rest q2 ty).2.geoCalls,
        (get_location_with_disambiguation env rest q2 ty).2.detailCalls⟩) ∧
    (∃ t, (get_location_with_disambiguation env rest q2 ty).2.geoCalls
      = (q2, ty) :: t) ∧
    (∀ e ∈ (get_location_with_disambiguation
        env (some customKey :: some q2 :: rest) q ty).2.geoCalls, e.2 = ty) := by
  refine ⟨?_, ?_, ?_⟩
  · unfold get_location_with_disambiguation
    rw [h, get_location_with_disambiguation_core]
    simp [customKey, h2, push_trace]
  · exact core_geoCalls_head env rest q2 ty
      (geocode_location env.apiKey q2 (env.geo q2))
  · exact core_geoCalls_role env (some customKey :: some q2 :: rest) q ty
      (geocode_location env.apiKey q (env.geo q))

/-- Witness for C7: two candidates for "two", the sentinel selected, the
refined query "one" resolving through its single candidate, role preserved. -/
theorem C7_witness :
    geocode_location envTwo.apiKey "two" (envTwo.geo "two") =
      Except.ok [⟨"pidA", "descA", "A"⟩, ⟨"pidB", "descB", "descB"⟩] ∧
    get_location_with_disambiguation envTwo [some customKey, some "one"] "two" "source" =
      (RunOutcome.success sampleLoc,
       ⟨[("two", "source"), ("one", "source")], ["pidB"]⟩) := by
  have h := C7_custom_reenters_discovery_once envTwo "two" "source" "one" []
    ⟨"pidA", "descA", "A"⟩ ⟨"pidB", "descB", "descB"⟩ [] (by decide) (by decide)
  refine ⟨by decide, ?_⟩
  rw [h.1, gld_single_candidate_eq envTwo [] "one" "source"
    ⟨"pidB", "descB", "descB"⟩ (by decide)]
  decide

/-! ## Python-dict lemmas for the options prompt (C9) -/

theorem dict_any_iff (d : List (String × String)) (k : String) :
    d.any (fun p => p.1 == k) = true ↔ k ∈ d.map Prod.fst := by
  simp only [List.any_eq_true, List.mem_map, beq_iff_eq]

theorem dict_set_keys (d : List (String × String)) (k v : String) :
    (dict_set d k v).map Prod.fst =
      if k ∈ d.map Prod.fst then d.map Prod.fst else d.map Prod.fst ++ [k] := by
  unfold dict_set
  by_cases hmem : k ∈ d.map Prod.fst
  · rw [if_pos ((dict_any_iff d k).2 hmem), if_pos hmem, List.map_map]
    refine List.map_congr_left ?_
    intro p hp
    by_cases hpk : p.1 = k <;> simp [hpk]
  · rw [if_neg (fun hany => hmem ((dict_any_iff d k).1 hany)), if_neg hmem]
    simp

theorem mem_dict_set_keys (d : List (String × String)) (k0 v k : String) :
    k ∈ (dict_set d k0 v).map Prod.fst ↔ k ∈ d.map Prod.fst ∨ k = k0 := by
  rw [dict_set_keys]
  by_cases hm : k0 ∈ d.map Prod.fst
  · simp only [if_pos hm]
    constructor
    · exact Or.inl
    · rintro (h | h)
      · exact h
      · exact h ▸ hm
  · simp [if_neg hm]

theorem nodup_dict_set (d : List (String × String)) (k v : String)
    (h : (d.map Prod.fst).Nodup) : ((dict_set d k v).map Prod.fst).Nodup := by
  rw [dict_set_keys]
  by_cases hm : k ∈ d.map Prod.fst <;> simp [hm, h, List.nodup_append]

theorem dict_set_length (d : List (String × String)) (k v : String) :
    (dict_set d k v).length =
      if k ∈ d.map Prod.fst then d.length else d.length + 1 := by
  have h1 : (dict_set d k v).length = ((dict_set d k v).map Prod.fst).length :=
    (List.length_map _ _).symm
  rw [h1, dict_set_keys]
  by_cases hm : k ∈ d.map Prod.fst <;> simp [hm]

theorem find_map_set (t : List (String × String)) (k v : String) :
    (t.map (fun p => if p.1 == k then (k, v) else p)).find? (fun p => p.1 == k) =
      if t.any (fun p => p.1 == k) then some (k, v) else none := by
  induction t with
  | nil => simp
  | cons p t ih =>
    by_cases hpk : p.1 = k
    · have hb : (p.1 == k) = true := by simp [hpk]
      simp only [List.map_cons, hb, if_true, List.any_cons, Bool.true_or]
      rw [List.find?_cons_of_pos _ (by simp)]
    · have hb : (p.1 == k) = false := by simp [hpk]
      simp only [List.map_cons, hb, Bool.false_eq_true, if_false, List.any_cons,
        Bool.false_or]
      rw [List.find?_cons_of_neg _ (by simp [hb]), ih]

theorem dict_get_set_self (d : List (String × String)) (k v : String) :
    dict_get (dict_set d k v) k = some v := by
  unfold dict_set dict_get
  by_cases h : d.any (fun p => p.1 == k) = true
  · rw [if_pos h, find_map_set, if_pos h]
    rfl
  · rw [if_neg h, List.find?_append]
    have hnone : d.find? (fun p => p.1 == k) = none := by
      rw [List.find?_eq_none]
      intro x hx hbeq
      exact h (List.any_eq_true.2 ⟨x, hx, hbeq⟩)
    simp [hnone, List.find?]

theorem fold_keys_mem (rs : List LocationOption) (d : List (String × String))
    (k : String) :
    (k ∈ (rs.foldl (fun d loc =>
        dict_set d loc.place_id (loc.name ++ " - " ++ loc.formatted_address)) d).map Prod.fst
      ↔ k ∈ d.map Prod.fst ∨ k ∈ rs.map LocationOption.place_id) := by
  induction rs generalizing d with
  | nil => simp
  | cons r t ih =>
    simp only [List.foldl_cons, List.map_cons, List.mem_cons]
    rw [ih, mem_dict_set_keys]
    tauto

theorem fold_keys_nodup (rs : List LocationOption) (d : List (String × String))
    (h : (d.map Prod.fst).Nodup) :
    ((rs.foldl (fun d loc =>
        dict_set d loc.place_id (loc.name ++ " - " ++ loc.formatted_address)) d).map
      Prod.fst).Nodup := by
  induction rs generalizing d with
  | nil => exact h
  | cons r t ih => exact ih _ (nodup_dict_set _ _ _ h)

/-- C9: the interactive choice prompt is a mapping keyed by candidate
identifier: its keys are exactly the distinct candidate identifiers plus
the sentinel key, with no duplicates, so duplicate candidate identifiers
collapse (strictly fewer than N + 1 entries when any two of the N
candidates share an identifier); and the entry at the sentinel key is
always the "none of these" option, overriding any candidate whose
identifier is the literal sentinel key. -/
theorem C9_options_prompt_keyed_by_identifier (rs : List LocationOption) :
    ((buildOptionsDict rs).map Prod.fst).Nodup ∧
    (∀ k, k ∈ (buildOptionsDict rs).map Prod.fst ↔
      k ∈ rs.map LocationOption.place_id ∨ k = customKey) ∧
    dict_get (buildOptionsDict rs) customKey = some customTitle ∧
    (¬ (rs.map LocationOption.place_id).Nodup →
      (buildOptionsDict rs).length < rs.length + 1) := by
  refine ⟨?_, ?_, dict_get_set_self _ _ _, ?_⟩
  · exact nodup_dict_set _ _ _ (fold_keys_nodup rs [] (by simp))
  · intro k
    unfold buildOptionsDict
    rw [mem_dict_set_keys, fold_keys_mem]
    simp
  · intro hdup
    have hsetlen : (buildOptionsDict rs).length ≤
        (rs.foldl (fun d loc =>
          dict_set d loc.place_id (loc.name ++ " - " ++ loc.formatted_address)) []).length + 1 := by
      unfold buildOptionsDict
      rw [dict_set_length]
      by_cases hm : customKey ∈ (rs.foldl (fun d loc =>
          dict_set d loc.place_id (loc.name ++ " - " ++ loc.formatted_address)) []).map Prod.fst
      · simp [hm]
      · simp [hm]
    have hnodup : ((rs.foldl (fun d loc =>
        dict_set d loc.place_id (loc.name ++ " - " ++ loc.formatted_address)) []).map
        Prod.fst).Nodup := fold_keys_nodup rs [] (by simp)
    have hsub : ∀ x ∈ (rs.foldl (fun d loc =>
        dict_set d loc.place_id (loc.name ++ " - " ++ loc.formatted_address)) []).map Prod.fst,
        x ∈ rs.map LocationOption.place_id := by
      intro x hx
      have := (fold_keys_mem rs [] x).1 hx
      simpa using this
    have hbase : ((rs.foldl (fun d loc =>
        dict_set d loc.place_id (loc.name ++ " - " ++ loc.formatted_address)) []).map
        Prod.fst).length ≤ (rs.map LocationOption.place_id).dedup.length := by
      rw [← List.toFinset_card_of_nodup hnodup, ← List.card_toFinset]
      exact Finset.card_le_card (fun x hx =>
        List.mem_toFinset.2 (hsub x (List.mem_toFinset.1 hx)))
    have hlt : (rs.map LocationOption.place_id).dedup.length <
        (rs.map LocationOption.place_id).length := by
      refine Nat.lt_of_le_of_ne
        ((rs.map LocationOption.place_id).dedup_sublist.length_le) (fun heq => ?_)
      have hde : (rs.map LocationOption.place_id).dedup = rs.map LocationOption.place_id :=
        (rs.map LocationOption.place_id).dedup_sublist.eq_of_length heq
      exact hdup (hde ▸ (rs.map LocationOption.place_id).nodup_dedup)
    have hlen : ((rs.foldl (fun d loc =>
        dict_set d loc.place_id (loc.name ++ " - " ++ loc.formatted_address)) []).map
        Prod.fst).length = (rs.foldl (fun d loc =>
        dict_set d loc.place_id (loc.name ++ " - " ++ loc.formatted_address)) []).length :=
      List.length_map _ _
    have hN : (rs.map LocationOption.place_id).length = rs.length := List.length_map _ _
    omega

/-- Witness for C9 at a concrete pair of candidates sharing the identifier
"p": only two entries are shown (one candidate entry plus the sentinel). -/
theorem C9_witness :
    ¬ (([⟨"p", "a", "NA"⟩, ⟨"p", "b", "NB"⟩] : List LocationOption).map
      LocationOption.place_id).Nodup ∧
    (buildOptionsDict [⟨"p", "a", "NA"⟩, ⟨"p", "b", "NB"⟩]).length < 3 ∧
    dict_get (buildOptionsDict [⟨"p", "a", "NA"⟩, ⟨"p", "b", "NB"⟩]) customKey =
      some customTitle := by
  have h := C9_options_prompt_keyed_by_identifier [⟨"p", "a", "NA"⟩, ⟨"p", "b", "NB"⟩]
  exact ⟨by decide, h.2.2.2 (by decide), h.2.2.1⟩

/-! ## Stateless disambiguation payload lemmas (C4) -/

theorem numberOptions_length (rs : List LocationOption) :
    (numberOptions rs).length = rs.length := by
  unfold numberOptions
  rw [List.length_map, List.enumFrom_length]

theorem numberOptions_numbers (rs : List LocationOption) :
    (numberOptions rs).map DisambigOption.option_number = List.range' 1 rs.length := by
  unfold numberOptions
  rw [List.map_map]
  exact List.enumFrom_map_fst 1 rs

theorem numberOptions_identifiers (rs : List LocationOption) :
    (numberOptions rs).map DisambigOption.identifier =
      rs.map LocationOption.place_id := by
  unfold numberOptions
  rw [List.map_map]
  have h : ((rs.enumFrom 1).map Prod.snd).map LocationOption.place_id =
      rs.map LocationOption.place_id := by rw [List.enumFrom_map_snd]
  rw [← h, List.map_map]
  rfl

/-- Environment whose discovery yields two predictions both carrying an
empty place identifier. -/
def envDupEmpty : Env :=
  { apiKey := some "k"
    geo := fun _ => .response "OK" [⟨"", "a", some "A"⟩, ⟨"", "b", some "B"⟩]
    detail := fun _ => .unexpected }

/-- C4 counterexample: a query yielding two discovery candidates produces a
`NeedsDisambiguation` payload whose options carry empty identifiers — the
code does not enforce non-emptiness of upstream place identifiers, so
"each carrying a non-empty identifier" fails as stated. -/
theorem C4_counterexample_empty_identifiers :
    geocode_location envDupEmpty.apiKey "x" (envDupEmpty.geo "x") =
      Except.ok [⟨"", "a", "A"⟩, ⟨"", "b", "B"⟩] ∧
    resolve_location envDupEmpty "x" "source" none =
      Except.ok (ResolutionOutcome.NeedsDisambiguation
        [⟨1, "A", "a", ""⟩, ⟨2, "B", "b", ""⟩], ⟨[("x", "source")], []⟩) ∧
    ¬ (∀ o ∈ ([⟨1, "A", "a", ""⟩, ⟨2, "B", "b", ""⟩] : List DisambigOption),
        o.identifier ≠ "") := by
  refine ⟨by decide, by decide, fun hall => ?_⟩
  exact hall ⟨1, "A", "a", ""⟩ (by simp) rfl

/-- C4 (amended): in stateless mode a query yielding N ≥ 2 discovery
candidates returns `NeedsDisambiguation` with exactly N options numbered
1..N, each option carrying the corresponding candidate's identifier (hence
non-empty whenever every discovered candidate's identifier is non-empty);
and a query yielding at most one candidate never produces
`NeedsDisambiguation`. -/
theorem C4_stateless_disambiguation_shape (env : Env) (q ty : String)
    (rs : List LocationOption)
    (h : geocode_location env.apiKey q (env.geo q) = Except.ok rs) :
    (2 ≤ rs.length →
      resolve_location env q ty none =
        Except.ok (ResolutionOutcome.NeedsDisambiguation (numberOptions rs),
          ⟨[(q, ty)], []⟩) ∧
      (numberOptions rs).length = rs.length ∧
      (numberOptions rs).map DisambigOption.option_number = List.range' 1 rs.length ∧
      (numberOptions rs).map DisambigOption.identifier = rs.map LocationOption.place_id ∧
      ((∀ r ∈ rs, r.place_id ≠ "") → ∀ o ∈ numberOptions rs, o.identifier ≠ "")) ∧
    (rs.length ≤ 1 → ∀ opts tr, resolve_location env q ty none ≠
      Except.ok (ResolutionOutcome.NeedsDisambiguation opts, tr)) := by
  constructor
  · intro hlen
    match rs, hlen with
    | a :: b :: t, _ =>
      refine ⟨?_, numberOptions_length _, numberOptions_numbers _,
        numberOptions_identifiers _, ?_⟩
      · unfold resolve_location
        rw [h]
      · intro hne o ho hid
        have hmem : o.identifier ∈ (numberOptions (a :: b :: t)).map
            DisambigOption.identifier := List.mem_map_of_mem _ ho
        rw [numberOptions_identifiers] at hmem
        obtain ⟨r, hr, hrid⟩ := List.mem_map.1 hmem
        exact hne r hr (hrid.trans hid)
  · intro hlen opts tr heq
    match rs, hlen with
    | [], _ =>
      unfold resolve_location at heq
      rw [h] at heq
      simp at heq
    | [c], _ =>
      unfold resolve_location at heq
      rw [h] at heq
      cases hd : resolve_location_by_place_id c.place_id (env.detail c.place_id) <;>
        simp [hd] at heq

/-- Witness for C4 (amended): two candidates for "two" produce the numbered
payload; the single-candidate environment never produces disambiguation. -/
theorem C4_witness :
    resolve_location envTwo "two" "source" none =
      Except.ok (ResolutionOutcome.NeedsDisambiguation
        [⟨1, "A", "descA", "pidA"⟩, ⟨2, "descB", "descB", "pidB"⟩],
        ⟨[("two", "source")], []⟩) ∧
    resolve_location envOne "q" "source" none ≠
      Except.ok (ResolutionOutcome.NeedsDisambiguation [], ⟨[("q", "source")], []⟩) := by
  have h2 := (C4_stateless_disambiguation_shape envTwo "two" "source"
    [⟨"pidA", "descA", "A"⟩, ⟨"pidB", "descB", "descB"⟩] (by decide)).1 (by decide)
  have h1 := (C4_stateless_disambiguation_shape envOne "q" "source"
    [⟨"pidB", "descB", "descB"⟩] (by decide)).2 (by decide)
  refine ⟨?_, h1 [] ⟨[("q", "source")], []⟩⟩
  rw [h2.1]
  decide

end CabsMCP
